import Mathlib

/-
Verification of the weekly-report period/metrics aggregation engine.

Each `def` below is a shallow embedding of a function of the repository;
its doc comment names the Python file and function it embeds.  Python
`datetime` dates are modelled by proleptic-Gregorian day numbers (days
since 0000-03-01), machine floats by `Rat` (every float produced by the
embedded code paths is exactly representable there except for the
infinities and NaN produced by pandas elementwise division, which are
modelled by the dedicated carrier `PFloat`).  Wall-clock instants are
modelled by seconds since the epoch as a `Nat`.
-/

namespace WeeklyReport

/-! ## Calendar arithmetic (src/weekly_report/src/periods/calculator.py) -/

/-- Gregorian leap-year test, as in Python's `datetime`/`calendar`. -/
def isLeap (y : Nat) : Bool :=
  (y % 4 == 0 && y % 100 != 0) || y % 400 == 0

/-- Day number of a proleptic-Gregorian calendar date, counted from
0000-03-01 (the standard days-from-civil computation, shifted so that it
stays in `Nat` for every year ≥ 1).  1970-01-01 is day 719468. -/
def daysFromCivil (y m d : Nat) : Nat :=
  let y2 := if m ≤ 2 then y - 1 else y
  let era := y2 / 400
  let yoe := y2 % 400
  let mp := if m > 2 then m - 3 else m + 9
  let doy := (153 * mp + 2) / 5 + d - 1
  let doe := yoe * 365 + yoe / 4 - yoe / 100 + doy
  era * 146097 + doe

/-- Weekday with Monday = 0 … Sunday = 6, the convention of Python's
`datetime.weekday()` (1970-01-01, day 719468, is a Thursday = 3). -/
def weekday (y m d : Nat) : Nat :=
  (daysFromCivil y m d + 2) % 7

/-- Ordinal day of the year, 1-based (Jan 1 ↦ 1). -/
def dayOfYear (y m d : Nat) : Nat :=
  daysFromCivil y m d - daysFromCivil y 1 1 + 1

/-- Number of ISO-8601 weeks in a year, by the ISO week number of
December 28 (which always lies in the year's last ISO week).  This is
the ground truth the repository's collaborator
`datetime.isocalendar()` implements. -/
def isoWeeksInYear (y : Nat) : Nat :=
  (dayOfYear y 12 28 + 10 - (weekday y 12 28 + 1)) / 7

/-- ISO-8601 `(year, week)` of a date, the semantics of Python's
`datetime.isocalendar()` (the external collaborator the repository uses
to assign rows to weeks). -/
def isocalendar (y m d : Nat) : Nat × Nat :=
  let dow := weekday y m d + 1
  let w := (dayOfYear y m d + 10 - dow) / 7
  if w = 0 then (y - 1, isoWeeksInYear (y - 1))
  else if w > isoWeeksInYear y then (y + 1, 1)
  else (y, w)

/-- Embeds `_has_53_weeks` (src/weekly_report/src/periods/calculator.py):
`jan_4 = datetime(year, 1, 4); return jan_4.weekday() >= 3`. -/
def has_53_weeks (year : Nat) : Bool :=
  decide (weekday year 1 4 ≥ 3)

/-- Zero-padding to two digits, as Python's `f"{n:02d}"` for `n ≥ 0`. -/
def pad2 (n : Nat) : String :=
  if n < 10 then "0" ++ toString n else toString n

/-- Embeds `_get_previous_week` (src/weekly_report/src/periods/calculator.py):
week-1 of the same year when `week > 1`, otherwise week 53 of the
previous year when `_has_53_weeks(year - 1)` and week 52 otherwise. -/
def get_previous_week (year week : Nat) : String :=
  if week > 1 then
    toString year ++ "-" ++ pad2 (week - 1)
  else
    let prev_year := year - 1
    if has_53_weeks prev_year then
      toString prev_year ++ "-53"
    else
      toString prev_year ++ "-52"

/-- Numeric value of a decimal digit character, `none` otherwise. -/
def digitVal (c : Char) : Option Nat :=
  if c.isDigit then some (c.toNat - 48) else none

/-- Embeds the prefix match of `re.match(r'(\d{4})-(\d{1,2})', iso_week)`
used throughout src/weekly_report/src/periods/calculator.py: exactly four
digits, a dash, then one or two digits (greedy), with any trailing text
ignored.  Returns the captured `(year, week)`. -/
def parseIsoWeekFormat (s : String) : Option (Nat × Nat) :=
  match s.data with
  | c1 :: c2 :: c3 :: c4 :: '-' :: rest =>
    match digitVal c1, digitVal c2, digitVal c3, digitVal c4 with
    | some y1, some y2, some y3, some y4 =>
      let year := ((y1 * 10 + y2) * 10 + y3) * 10 + y4
      match rest with
      | c5 :: c6 :: _ =>
        match digitVal c5, digitVal c6 with
        | some w1, some w2 => some (year, w1 * 10 + w2)
        | some w1, none => some (year, w1)
        | none, _ => none
      | [c5] =>
        match digitVal c5 with
        | some w1 => some (year, w1)
        | none => none
      | [] => none
    | _, _, _, _ => none
  | _ => none

/-- Inverse of `daysFromCivil`: the `(y, m, d)` of a day number. -/
def civilFromDays (z : Nat) : Nat × Nat × Nat :=
  let era := z / 146097
  let doe := z % 146097
  let yoe := (doe - doe / 1460 + doe / 36524 - doe / 146096) / 365
  let y := yoe + era * 400
  let doy := doe - (365 * yoe + yoe / 4 - yoe / 100)
  let mp := (5 * doy + 2) / 153
  let d := doy - (153 * mp + 2) / 5 + 1
  let m := if mp < 10 then mp + 3 else mp - 9
  (if m ≤ 2 then y + 1 else y, m, d)

/-- Month abbreviations of C's `%b` in the POSIX locale, used by
Python's `strftime('%b %d')`. -/
def monthAbbrev (m : Nat) : String :=
  (["Jan", "Feb", "Mar", "Apr", "May", "Jun",
    "Jul", "Aug", "Sep", "Oct", "Nov", "Dec"]).getD (m - 1) ""

/-- Formats a day number as `strftime('%Y-%m-%d')` does (for years with
four digits). -/
def fmtDate (z : Nat) : String :=
  let c := civilFromDays z
  toString c.1 ++ "-" ++ pad2 c.2.1 ++ "-" ++ pad2 c.2.2

/-- Formats a day number as `strftime('%b %d')` does. -/
def fmtDisplay (z : Nat) : String :=
  let c := civilFromDays z
  monthAbbrev c.2.1 ++ " " ++ pad2 c.2.2

/-- Result shape of `get_week_date_range`: the `start`, `end` and
`display` entries of the returned dict. -/
structure WeekDateRange where
  start : String
  endDate : String
  display : String
  deriving DecidableEq, Repr

/-- Embeds `get_week_date_range` (src/weekly_report/src/periods/calculator.py):
match the week string against `(\d{4})-(\d{1,2})` (raising `ValueError`,
modelled by `.error`, when it does not match), then Monday of the target
week = (Jan 4 minus its weekday) + (week-1) weeks, Sunday = Monday + 6
days.  The source performs no range check on the parsed week number. -/
def get_week_date_range (iso_week : String) : Except String WeekDateRange :=
  match parseIsoWeekFormat iso_week with
  | none => .error ("Invalid ISO week format: " ++ iso_week)
  | some (year, week) =>
    let jan_4 := daysFromCivil year 1 4
    let jan_4_weekday := (jan_4 + 2) % 7
    let first_monday := jan_4 - jan_4_weekday
    let target_monday := ((first_monday : Int) + 7 * ((week : Int) - 1)).toNat
    let target_sunday := target_monday + 6
    .ok { start := fmtDate target_monday
          endDate := fmtDate target_sunday
          display := fmtDisplay target_monday ++ " - " ++ fmtDisplay target_sunday }

/-! ## Pandas float semantics -/

/-- Carrier for the values pandas elementwise arithmetic can produce:
finite floats (modelled exactly by `Rat`), the two infinities, and NaN. -/
inductive PFloat where
  | finite (q : ℚ)
  | posInf
  | negInf
  | nan
  deriving DecidableEq, Repr

/-- Pandas/NumPy elementwise division of a finite float by a count:
`x / 0` is `+inf` for `x > 0`, `-inf` for `x < 0` and `NaN` for `0 / 0`
(no exception is raised). -/
def pdivCount (num : ℚ) (den : Nat) : PFloat :=
  if den = 0 then
    if num > 0 then .posInf
    else if num < 0 then .negInf
    else .nan
  else .finite (num / den)

/-- Pandas `Series.fillna(0)`: replaces NaN by 0 and leaves every other
value (the infinities included) unchanged. -/
def fillna0 : PFloat → PFloat
  | .nan => .finite 0
  | x => x

/-! ## Qlik rows (the analytics source table) -/

/-- One row of the loaded Qlik table, restricted to the columns the
embedded calculators read.  `Option` fields model nullable columns
(`none` = pandas `NaN`); `salesQty` is the value of
`pd.to_numeric(.., errors='coerce')` on the raw `Sales Qty` cell
(`none` when unparseable or missing). -/
structure QlikRow where
  salesChannel : String
  newReturning : String
  country : Option String
  grossRevenue : ℚ
  netRevenue : ℚ
  orderNo : Option String
  customerEmail : Option String
  gender : Option String
  productCategory : Option String
  product : Option String
  color : Option String
  salesQty : Option ℚ
  deriving DecidableEq, Repr

/-- Number of distinct non-null values of a column, pandas `nunique()`. -/
def nuniqueBy (rows : List QlikRow) (col : QlikRow → Option String) : Nat :=
  ((rows.filterMap col).dedup).length

/-- Result shape of the per-country single-week calculators: the `week`
key and the `countries` dict (association list; the dict's key order is
immaterial to its contents). -/
structure WeekCountries where
  week : String
  countries : List (String × PFloat)
  deriving DecidableEq, Repr

/-- Embeds `calculate_aov_new_customers_per_country_for_week`
(src/weekly_report/src/metrics/aov_new_customers_per_country.py):
filter to online new-customer rows, group by country (pandas drops
null-country rows from the grouping), AOV = sum of `Gross Revenue` over
distinct count of `Order No` computed by pandas elementwise division
followed by `fillna(0)`, and countries `'-'`/null are skipped when the
result dict is assembled. -/
def calculate_aov_new_customers_per_country_for_week
    (qlik_df : List QlikRow) (week_str : String) : WeekCountries :=
  if qlik_df = [] then ⟨week_str, []⟩
  else
    let online_df := qlik_df.filter (fun r => decide (r.salesChannel = "Online"))
    let new_customers_df := online_df.filter (fun r => decide (r.newReturning = "New"))
    if new_customers_df = [] then ⟨week_str, []⟩
    else
      let countries := (new_customers_df.filterMap (fun r => r.country)).dedup
      ⟨week_str,
        (countries.filter (fun c => decide (c ≠ "-"))).map (fun c =>
          let rows := new_customers_df.filter (fun r => decide (r.country = some c))
          let gross := (rows.map (fun r => r.grossRevenue)).sum
          let orders := nuniqueBy rows (fun r => r.orderNo)
          (c, fillna0 (pdivCount gross orders)))⟩

/-! ## Category sales and top products by gender -/

/-- Result shape of the category-sales single-week calculators. -/
structure WeekCategories where
  week : String
  categories : List (String × ℚ)
  deriving DecidableEq, Repr

/-- Embeds `calculate_men_category_sales_for_week`
(src/weekly_report/src/metrics/men_category_sales.py): keeps the online
rows whose upper-cased `Gender` equals the string `MEN` exactly (a null
gender never matches), groups by `Product Category` summing
`Gross Revenue`, and skips null/`'-'` categories when assembling the
result dict. -/
def calculate_men_category_sales_for_week
    (qlik_df : List QlikRow) (week_str : String) : WeekCategories :=
  let men_df := qlik_df.filter (fun r =>
    decide (r.salesChannel = "Online") && decide (r.gender.map String.toUpper = some "MEN"))
  let cats := (men_df.filterMap (fun r => r.productCategory)).dedup
  ⟨week_str,
    (cats.filter (fun c => decide (c ≠ "-"))).map (fun c =>
      (c, ((men_df.filter (fun r => decide (r.productCategory = some c))).map
            (fun r => r.grossRevenue)).sum))⟩

/-- Specification-side definition for claim C6's amended wording: the
men category-sales figures aggregate exactly the online rows whose
upper-cased gender segment is the string `MEN`. -/
def menCategorySalesSpec (qlik_df : List QlikRow) (week_str : String) : WeekCategories :=
  let matching := qlik_df.filter (fun r =>
    decide (r.salesChannel = "Online" ∧ r.gender.map String.toUpper = some "MEN"))
  ⟨week_str,
    (((matching.filterMap (fun r => r.productCategory)).dedup).filter
        (fun c => decide (c ≠ "-"))).map (fun c =>
      (c, ((matching.filter (fun r => decide (r.productCategory = some c))).map
            (fun r => r.grossRevenue)).sum))⟩

/-- Embeds the gender filter of `calculate_top_products_by_gender_for_week`
(src/weekly_report/src/metrics/top_products_gender.py): for `'men'` keep
every row whose upper-cased gender is NOT `WOMEN` (null genders are kept,
since pandas `NaN != 'WOMEN'` holds), for `'women'` keep exactly the
upper-cased `WOMEN` rows, and for any other filter string keep all. -/
def genderKeep (gender_filter : String) (g : Option String) : Bool :=
  if gender_filter = "men" then !(decide (g.map String.toUpper = some "WOMEN"))
  else if gender_filter = "women" then decide (g.map String.toUpper = some "WOMEN")
  else true

/-- Grouping key of the top-products calculator:
`(Gender, Product Category, Product, Color)`. -/
abbrev ProductKey := String × String × String × String

/-- Grouping key of a row; `none` when any of the four key columns is
null, in which case pandas `groupby` drops the row from the grouping. -/
def keyOf (r : QlikRow) : Option ProductKey :=
  match r.gender, r.productCategory, r.product, r.color with
  | some g, some c, some p, some col => some (g, c, p, col)
  | _, _, _, _ => none

/-- Effective sales quantity of a row after
`pd.to_numeric(errors='coerce').fillna(0)`. -/
def effQty (r : QlikRow) : ℚ :=
  r.salesQty.getD 0

/-- Summed `Gross Revenue` of one product group. -/
def groupRev (online_df : List QlikRow) (k : ProductKey) : ℚ :=
  ((online_df.filter (fun r => decide (keyOf r = some k))).map (fun r => r.grossRevenue)).sum

/-- Summed effective `Sales Qty` of one product group. -/
def groupQty (online_df : List QlikRow) (k : ProductKey) : ℚ :=
  ((online_df.filter (fun r => decide (keyOf r = some k))).map effQty).sum

/-- The placeholder filter applied to the grouped frame: gender,
category and product must differ from `'-'` (the null checks of the
source are vacuous there, nulls having been dropped by `groupby`).  The
color is deliberately not checked. -/
def validKey (k : ProductKey) : Bool :=
  decide (k.1 ≠ "-") && decide (k.2.1 ≠ "-") && decide (k.2.2.1 ≠ "-")

/-- The top-N group keys: distinct grouping keys of the online frame
(pandas enumerates them in sorted order; this embedding enumerates them
in occurrence order, which only affects how revenue ties are broken — an
order `sort_values`'s unstable sort leaves unspecified anyway), filtered
of placeholder keys, sorted by group revenue descending, first N taken. -/
def topKeys (online_df : List QlikRow) (top_n : Nat) : List ProductKey :=
  ((((online_df.filterMap keyOf).dedup).filter validKey).mergeSort
    (fun a b => decide (groupRev online_df a ≥ groupRev online_df b))).take top_n

/-- One formatted entry of the top-products list. -/
structure ProductEntry where
  rank : Nat
  gender : String
  category : String
  product : String
  color : String
  gross_revenue : ℚ
  sales_qty : ℤ
  deriving DecidableEq, Repr

/-- A totals row of the top-products result (`gross_revenue`,
`sales_qty`, `sob` share-of-business percentage). -/
structure TotalsEntry where
  gross_revenue : ℚ
  sales_qty : ℤ
  sob : ℚ
  deriving DecidableEq, Repr

/-- Full result of the top-products-by-gender single-week calculator. -/
structure TopProductsResult where
  week : String
  products : List ProductEntry
  top_total : TotalsEntry
  grand_total : TotalsEntry
  deriving DecidableEq, Repr

/-- Python's `int()` on a finite float: truncation toward zero. -/
def pytrunc (q : ℚ) : ℤ :=
  if 0 ≤ q then ⌊q⌋ else ⌈q⌉

/-- Embeds `calculate_top_products_by_gender_for_week`
(src/weekly_report/src/metrics/top_products_gender.py): filter to online
rows and apply the gender filter; group by (gender, category, product,
color) summing revenue and effective quantity; drop placeholder groups;
sort by revenue descending and take the top N; report the ranked
entries, the top-N subtotal, and the grand total taken over ALL filtered
online rows (grouped or not), with `sob` = top revenue over grand
revenue × 100 guarded to 0 on a non-positive denominator and the grand
total's `sob` hard-coded to 100.0. -/
def calculate_top_products_by_gender_for_week
    (qlik_df : List QlikRow) (week_str gender_filter : String) (top_n : Nat) :
    TopProductsResult :=
  let online_df := qlik_df.filter (fun r =>
    decide (r.salesChannel = "Online") && genderKeep gender_filter r.gender)
  let tks := topKeys online_df top_n
  let top_total_revenue := (tks.map (groupRev online_df)).sum
  let top_total_qty := (tks.map (groupQty online_df)).sum
  let grand_total_revenue := (online_df.map (fun r => r.grossRevenue)).sum
  let grand_total_qty := (online_df.map effQty).sum
  { week := week_str
    products := tks.enum.map (fun p =>
      { rank := p.1 + 1
        gender := p.2.1.toUpper
        category := p.2.2.1
        product := p.2.2.2.1
        color := if p.2.2.2.2 = "-" then "" else p.2.2.2.2
        gross_revenue := groupRev online_df p.2
        sales_qty := pytrunc (groupQty online_df p.2) })
    top_total :=
      { gross_revenue := top_total_revenue
        sales_qty := pytrunc top_total_qty
        sob := if grand_total_revenue > 0 then top_total_revenue / grand_total_revenue * 100 else 0 }
    grand_total :=
      { gross_revenue := grand_total_revenue
        sales_qty := pytrunc grand_total_qty
        sob := 100 } }

/-- Whether a row belongs to one of the selected top groups. -/
def predInTop (tks : List ProductKey) (r : QlikRow) : Bool :=
  match keyOf r with
  | some k => decide (k ∈ tks)
  | none => false

/-- The summed effective quantity of the online rows the top-N selection
excludes: rows whose group was dropped (placeholder or null key
components) or ranked below the top N.  This is the quantity claim C7's
conservation identity refers to. -/
def excludedOnlineQty (qlik_df : List QlikRow) (gender_filter : String) (top_n : Nat) : ℚ :=
  let online_df := qlik_df.filter (fun r =>
    decide (r.salesChannel = "Online") && genderKeep gender_filter r.gender)
  ((online_df.filter (fun r => !(predInTop (topKeys online_df top_n) r))).map effQty).sum

/-! ## Metrics cache (src/weekly_report/src/cache/manager.py) -/

/-- Key data of `MetricsCache._get_cache_key`: the base week, the sorted
period list and the request timestamp truncated to the minute.  The
source hashes the canonical JSON encoding of this triple with MD5; the
hex digest is modelled by the (injectively encoded) key data itself. -/
structure CacheKey where
  base_week : String
  periods : List String
  minute : Nat
  deriving DecidableEq, Repr

/-- One value of the persisted cache JSON document:
`{data, timestamp, base_week, periods}` (timestamps in seconds; the
source's ISO-format timestamp strings compare lexicographically exactly
as the instants compare numerically). -/
structure CacheEntry (α : Type) where
  data : α
  timestamp : Nat
  base_week : String
  periods : List String
  deriving DecidableEq, Repr

/-- The persisted store: an insertion-ordered dictionary from cache key
to entry, modelled as an association list. -/
abbrev MetricsStore (α : Type) : Type :=
  List (CacheKey × CacheEntry α)

/-- Embeds `MetricsCache._get_cache_key`: key data `(base_week,
sorted(periods), now to minute granularity)`. -/
def get_cache_key (base_week : String) (periods : List String) (now : Nat) : CacheKey :=
  ⟨base_week, periods.mergeSort (fun a b => decide (a ≤ b)), now / 60⟩

/-- Python dict assignment `cache_data[key] = entry`: overwrite in place
when the key is present, append otherwise. -/
def store_insert (st : MetricsStore α) (k : CacheKey) (e : CacheEntry α) : MetricsStore α :=
  if st.any (fun p => decide (p.1 = k)) then
    st.map (fun p => if p.1 = k then (k, e) else p)
  else
    st ++ [(k, e)]

/-- Python dict lookup `cache_data.get(key)`. -/
def store_lookup (st : MetricsStore α) (k : CacheKey) : Option (CacheEntry α) :=
  (st.find? (fun p => decide (p.1 = k))).map (fun p => p.2)

/-- Embeds `MetricsCache.get`: recompute the cache key for the current
minute, miss when it is absent (a missing cache file is the empty
store), miss when the entry is older than one hour
(`now - cache_time > timedelta(hours=1)`), return the payload
otherwise. -/
def metrics_cache_get (st : MetricsStore α) (base_week : String)
    (periods : List String) (now : Nat) : Option α :=
  match store_lookup st (get_cache_key base_week periods now) with
  | none => none
  | some e => if now - e.timestamp > 3600 then none else some e.data

/-- Embeds `MetricsCache.set`: store the entry under the key of the
current minute, then, when the document holds more than 10 entries, keep
only the 10 with the lexicographically greatest (= most recent)
timestamps, via a descending stable sort (Python's
`sorted(..., reverse=True)`) and `[:10]`. -/
def metrics_cache_set (st : MetricsStore α) (base_week : String)
    (periods : List String) (data : α) (now : Nat) : MetricsStore α :=
  let k := get_cache_key base_week periods now
  let st2 := store_insert st k ⟨data, now, base_week, periods⟩
  if st2.length > 10 then
    (st2.mergeSort (fun a b => decide (a.2.timestamp ≥ b.2.timestamp))).take 10
  else
    st2

/-! ## Period set and batch orchestrator
(src/weekly_report/src/metrics/batch_calculator.py) -/

/-- The period mapping produced by `get_periods_for_week`
(src/weekly_report/src/periods/calculator.py). -/
structure Periods where
  actual : String
  last_week : String
  last_year : String
  year_2023 : String
  deriving DecidableEq, Repr

/-- The dict items of a period mapping, in insertion order. -/
def Periods.items (p : Periods) : List (String × String) :=
  [("actual", p.actual), ("last_week", p.last_week),
   ("last_year", p.last_year), ("year_2023", p.year_2023)]

/-- Environment of one `calculate_all_metrics` call: the outcome of the
period resolution and of each of the 23 family computations it invokes
(each family is called once, with arguments fixed by the call, so its
outcome is a single `Except` value: `.error` models a raised
exception). -/
structure BatchEnv (ε α : Type) where
  get_periods : Except ε Periods
  table1 : Except ε α
  markets : Except ε α
  kpis : Except ε α
  contribution : Except ε α
  gender_sales : Except ε α
  men_category_sales : Except ε α
  women_category_sales : Except ε α
  category_sales : Except ε α
  products_new : Except ε α
  products_gender : Except ε α
  sessions_per_country : Except ε α
  conversion_per_country : Except ε α
  new_customers_per_country : Except ε α
  returning_customers_per_country : Except ε α
  aov_new_customers_per_country : Except ε α
  aov_returning_customers_per_country : Except ε α
  marketing_spend_per_country : Except ε α
  ncac_per_country : Except ε α
  contribution_new_per_country : Except ε α
  contribution_new_total_per_country : Except ε α
  contribution_returning_per_country : Except ε α
  contribution_returning_total_per_country : Except ε α
  total_contribution_per_country : Except ε α

/-- The result dict of `calculate_all_metrics`, one named slot per
family (the `metrics` slot holds the table1 family). -/
structure Bundle (α : Type) where
  periods : Periods
  metrics : α
  markets : α
  kpis : α
  contribution : α
  gender_sales : α
  men_category_sales : α
  women_category_sales : α
  category_sales : α
  products_new : α
  products_gender : α
  sessions_per_country : α
  conversion_per_country : α
  new_customers_per_country : α
  returning_customers_per_country : α
  aov_new_customers_per_country : α
  aov_returning_customers_per_country : α
  marketing_spend_per_country : α
  ncac_per_country : α
  contribution_new_per_country : α
  contribution_new_total_per_country : α
  contribution_returning_per_country : α
  contribution_returning_total_per_country : α
  total_contribution_per_country : α

/-- Embeds `calculate_all_metrics`
(src/weekly_report/src/metrics/batch_calculator.py): resolve the periods
(failures propagate), then run the 23 families in their fixed source
order inside a single `try` block whose `except` clause logs and
RE-RAISES, so the first family failure aborts the whole call; only when
every family succeeds is the populated result dict returned. -/
def calculate_all_metrics (env : BatchEnv ε α) : Except ε (Bundle α) := do
  let periods ← env.get_periods
  let metrics ← env.table1
  let markets ← env.markets
  let kpis ← env.kpis
  let contribution ← env.contribution
  let gender_sales ← env.gender_sales
  let men_category_sales ← env.men_category_sales
  let women_category_sales ← env.women_category_sales
  let category_sales ← env.category_sales
  let products_new ← env.products_new
  let products_gender ← env.products_gender
  let sessions_per_country ← env.sessions_per_country
  let conversion_per_country ← env.conversion_per_country
  let new_customers_per_country ← env.new_customers_per_country
  let returning_customers_per_country ← env.returning_customers_per_country
  let aov_new_customers_per_country ← env.aov_new_customers_per_country
  let aov_returning_customers_per_country ← env.aov_returning_customers_per_country
  let marketing_spend_per_country ← env.marketing_spend_per_country
  let ncac_per_country ← env.ncac_per_country
  let contribution_new_per_country ← env.contribution_new_per_country
  let contribution_new_total_per_country ← env.contribution_new_total_per_country
  let contribution_returning_per_country ← env.contribution_returning_per_country
  let contribution_returning_total_per_country ← env.contribution_returning_total_per_country
  let total_contribution_per_country ← env.total_contribution_per_country
  return { periods, metrics, markets, kpis, contribution, gender_sales,
           men_category_sales, women_category_sales, category_sales,
           products_new, products_gender, sessions_per_country,
           conversion_per_country, new_customers_per_country,
           returning_customers_per_country, aov_new_customers_per_country,
           aov_returning_customers_per_country, marketing_spend_per_country,
           ncac_per_country, contribution_new_per_country,
           contribution_new_total_per_country, contribution_returning_per_country,
           contribution_returning_total_per_country, total_contribution_per_country }

/-- A concrete batch environment in which raw data loads fine and every
family succeeds except `contribution`, which raises — the scenario of
claim C1. -/
def envC1 : BatchEnv String Nat :=
  { get_periods := .ok ⟨"2025-42", "2025-41", "2024-42", "2023-42"⟩
    table1 := .ok 1, markets := .ok 1, kpis := .ok 1
    contribution := .error "contribution family raised"
    gender_sales := .ok 1, men_category_sales := .ok 1
    women_category_sales := .ok 1, category_sales := .ok 1
    products_new := .ok 1, products_gender := .ok 1
    sessions_per_country := .ok 1, conversion_per_country := .ok 1
    new_customers_per_country := .ok 1, returning_customers_per_country := .ok 1
    aov_new_customers_per_country := .ok 1, aov_returning_customers_per_country := .ok 1
    marketing_spend_per_country := .ok 1, ncac_per_country := .ok 1
    contribution_new_per_country := .ok 1, contribution_new_total_per_country := .ok 1
    contribution_returning_per_country := .ok 1
    contribution_returning_total_per_country := .ok 1
    total_contribution_per_country := .ok 1 }

/-! ## Table1 multi-period calculation (src/weekly_report/src/metrics/table1.py) -/

/-- The 13 headline metrics of `calculate_table1_metrics` /
`_get_zero_metrics`. -/
structure Table1Metrics where
  online_gross_revenue : ℚ
  returns : ℚ
  return_rate_pct : ℚ
  online_net_revenue : ℚ
  retail_concept_store : ℚ
  retail_popups_outlets : ℚ
  retail_net_revenue : ℚ
  wholesale_net_revenue : ℚ
  total_net_revenue : ℚ
  returning_customers : ℤ
  new_customers : ℤ
  marketing_spend : ℚ
  online_cost_of_sale_3 : ℚ
  deriving DecidableEq, Repr

/-- Embeds `_get_zero_metrics` (src/weekly_report/src/metrics/table1.py)
— also the literal zero dict inlined in `calculate_table1_for_periods`'s
per-period `except` clause, which lists the same 13 zero values. -/
def zero_metrics : Table1Metrics :=
  { online_gross_revenue := 0, returns := 0, return_rate_pct := 0
    online_net_revenue := 0, retail_concept_store := 0
    retail_popups_outlets := 0, retail_net_revenue := 0
    wholesale_net_revenue := 0, total_net_revenue := 0
    returning_customers := 0, new_customers := 0
    marketing_spend := 0, online_cost_of_sale_3 := 0 }

/-- A start/end date range (the YTD windows). -/
structure DateRange where
  start : String
  endDate : String
  deriving DecidableEq, Repr

/-- Environment of the table1 multi-period functions: the file-system
loader `load_all_raw_data` (called with a directory path; `.error`
models a raised exception) and the downstream per-period computations,
abstracted since claim C9 concerns only where raw data is read from. -/
structure Table1Env (Raw ε : Type) where
  load_all_raw_data : String → Except ε Raw
  period_metrics : Raw → String → Except ε Table1Metrics
  ytd_periods : String → Except ε (List (String × DateRange))
  ytd_metrics : Raw → DateRange → Except ε Table1Metrics

/-- The directory both table1 multi-period functions load raw data from:
`data_root / "raw" / "2025-42"`, a constant independent of the requested
periods. -/
def latest_data_path (data_root : String) : String :=
  data_root ++ "/raw/2025-42"

/-- Embeds `calculate_table1_for_periods`
(src/weekly_report/src/metrics/table1.py): load all raw data once from
`data_root/raw/2025-42` (a load failure is re-raised and aborts the
call), then compute each requested period from the loaded frames,
substituting the zero metrics for any period whose computation fails. -/
def calculate_table1_for_periods (env : Table1Env Raw ε)
    (periods : List (String × String)) (data_root : String) :
    Except ε (List (String × Table1Metrics)) :=
  match env.load_all_raw_data (latest_data_path data_root) with
  | .error e => .error e
  | .ok raw =>
    .ok (periods.map (fun p =>
      (p.1, match env.period_metrics raw p.2 with
            | .ok m => m
            | .error _ => zero_metrics)))

/-- Embeds `calculate_table1_for_periods_with_ytd`
(src/weekly_report/src/metrics/table1.py): read the base week from
`periods['actual']`, load all raw data once from `data_root/raw/2025-42`
(a load failure is re-raised), compute the four regular periods
(failures zeroed per period), then the YTD windows (failures zeroed per
window; a failure computing the YTD period table itself is logged and
swallowed, returning the regular periods alone). -/
def calculate_table1_for_periods_with_ytd (env : Table1Env Raw ε)
    (periods : Periods) (data_root : String) :
    Except ε (List (String × Table1Metrics)) :=
  let base_week := periods.actual
  match env.load_all_raw_data (latest_data_path data_root) with
  | .error e => .error e
  | .ok raw =>
    let results := periods.items.map (fun p =>
      (p.1, match env.period_metrics raw p.2 with
            | .ok m => m
            | .error _ => zero_metrics))
    match env.ytd_periods base_week with
    | .error _ => .ok results
    | .ok ytds =>
      .ok (results ++ ytds.map (fun y =>
        (y.1, match env.ytd_metrics raw y.2 with
              | .ok m => m
              | .error _ => zero_metrics)))

/-! ## Concrete rows used by the claim instances -/

/-- An online new-customer row for country SE with 100.0 of gross
revenue and a missing `Order No` (pandas `NaN`), claim C4's failing
input. -/
def rowC4 : QlikRow :=
  { salesChannel := "Online", newReturning := "New", country := some "SE",
    grossRevenue := 100, netRevenue := 90, orderNo := none,
    customerEmail := some "c@example.com", gender := some "Men",
    productCategory := some "Tops", product := some "Tee",
    color := some "Black", salesQty := some 1 }

/-- An online row whose gender segment is `Unisex` (not exactly
`women`), carrying 100.0 of gross revenue in category `Tops`, claim C6's
counterexample input. -/
def rowC6 : QlikRow :=
  { salesChannel := "Online", newReturning := "New", country := some "SE",
    grossRevenue := 100, netRevenue := 90, orderNo := some "O1",
    customerEmail := some "c@example.com", gender := some "Unisex",
    productCategory := some "Tops", product := some "Tee",
    color := some "Black", salesQty := some 1 }

/-- First of claim C7's counterexample rows: men's product A, revenue
100, parsed sales quantity 1/2 (a fractional quantity, e.g. the cell
text `0.5`). -/
def rowA7 : QlikRow :=
  { salesChannel := "Online", newReturning := "New", country := some "SE",
    grossRevenue := 100, netRevenue := 90, orderNo := some "O1",
    customerEmail := some "c@example.com", gender := some "Men",
    productCategory := some "Tops", product := some "A",
    color := some "Black", salesQty := some (1/2) }

/-- Second of claim C7's counterexample rows: men's product B, revenue
50, parsed sales quantity 1/2. -/
def rowB7 : QlikRow :=
  { salesChannel := "Online", newReturning := "New", country := some "SE",
    grossRevenue := 50, netRevenue := 45, orderNo := some "O2",
    customerEmail := some "c@example.com", gender := some "Men",
    productCategory := some "Tops", product := some "B",
    color := some "Black", salesQty := some (1/2) }

/-- A men's row with whole-number quantity, used to witness claim C7's
amended conservation identity. -/
def rowW7 : QlikRow :=
  { salesChannel := "Online", newReturning := "New", country := some "SE",
    grossRevenue := 100, netRevenue := 90, orderNo := some "O1",
    customerEmail := some "c@example.com", gender := some "Men",
    productCategory := some "Tops", product := some "A",
    color := some "Black", salesQty := some 3 }

/-! ## Claim theorems -/

/-- C2 (code bug): `_has_53_weeks` returns `true` for 2025 (Jan 4 2025
is a Saturday, weekday 5 ≥ 3) although ISO-8601 assigns 2025 only 52
weeks — the `isocalendar` of 2025-12-31 is week 1 of 2026 — and likewise
`true` for 2024 (52 ISO weeks); it agrees with ISO only incidentally,
e.g. for 2026. -/
theorem c2_has_53_weeks_disagrees_with_iso :
    has_53_weeks 2025 = true ∧ isocalendar 2025 12 31 = (2026, 1)
      ∧ isoWeeksInYear 2025 = 52
      ∧ has_53_weeks 2024 = true ∧ isocalendar 2024 12 31 = (2025, 1)
      ∧ isoWeeksInYear 2024 = 52
      ∧ has_53_weeks 2026 = true ∧ isoWeeksInYear 2026 = 53 := by
  decide

/-- C3 (code bug): `_get_previous_week(2025, 1)` returns `"2024-53"`
because `_has_53_weeks(2024)` wrongly holds, although 2024 has 52 ISO
weeks, so the ISO week before 2025-W01 is `"2024-52"`; the plain
`week > 1` branch is fine. -/
theorem c3_previous_week_wrong_at_year_boundary :
    get_previous_week 2025 1 = "2024-53" ∧ isoWeeksInYear 2024 = 52
      ∧ isocalendar 2024 12 31 = (2025, 1)
      ∧ get_previous_week 2025 2 = "2025-01" := by
  decide

/-- C5 (counterexample): `get_week_date_range "2025-99"` is not
rejected: the source validates only the `(\d{4})-(\d{1,2})` format, so
week 99 is accepted and mapped to the Monday–Sunday range 98 weeks after
the first ISO Monday of 2025. -/
theorem c5_counterexample_week99_accepted :
    get_week_date_range "2025-99"
      = .ok { start := "2026-11-16", endDate := "2026-11-22",
              display := "Nov 16 - Nov 22" } := by
  with_unfolding_all rfl

/-- C5 (amended): `get_week_date_range` fails exactly on the strings
whose prefix does not match `(\d{4})-(\d{1,2})`; it performs no range
check at all on the parsed week number. -/
theorem c5_amended_failure_iff_format_mismatch (s : String) :
    (get_week_date_range s).isOk = (parseIsoWeekFormat s).isSome := by
  unfold get_week_date_range
  rcases parseIsoWeekFormat s with _ | ⟨y, w⟩ <;> simp [Except.isOk, Except.toBool]

/-- C1 (counterexample): in a batch where raw data and every other
family succeed but the `contribution` family raises, the
`calculate_all_metrics` call itself raises (returns the error) instead
of returning a bundle with an empty `contribution` slot. -/
theorem c1_counterexample_batch_raises :
    calculate_all_metrics envC1 = .error "contribution family raised" := by
  with_unfolding_all rfl

/-- C1 (amended): the single `try`/`except`-and-re-raise of
`calculate_all_metrics` propagates the first family failure: when period
resolution and the families before it succeed but `contribution` raises,
the whole call returns that error and no bundle. -/
theorem c1_amended_family_failure_propagates {ε α : Type} (env : BatchEnv ε α)
    (p : Periods) (v1 v2 v3 : α) (e : ε)
    (hp : env.get_periods = .ok p) (h1 : env.table1 = .ok v1)
    (h2 : env.markets = .ok v2) (h3 : env.kpis = .ok v3)
    (hc : env.contribution = .error e) :
    calculate_all_metrics env = .error e := by
  simp only [calculate_all_metrics, hp, h1, h2, h3, hc]
  rfl

/-- C1 (witness): the amended propagation instantiated on the concrete
environment `envC1`. -/
theorem c1_amended_witness :
    calculate_all_metrics envC1 = .error "contribution family raised" :=
  c1_amended_family_failure_propagates envC1
    ⟨"2025-42", "2025-41", "2024-42", "2023-42"⟩ 1 1 1
    "contribution family raised" rfl rfl rfl rfl rfl

/-- C9: both table1 multi-period functions read raw data only from the
fixed directory `data_root/raw/2025-42`: their result depends on the
loader only through its value at that one path (whatever the requested
periods or base week), and a load failure there is re-raised as the
result of the whole call. -/
theorem c9_table1_reads_only_fixed_directory {Raw ε : Type}
    (cp : Raw → String → Except ε Table1Metrics)
    (yp : String → Except ε (List (String × DateRange)))
    (ym : Raw → DateRange → Except ε Table1Metrics)
    (l1 l2 : String → Except ε Raw)
    (plist : List (String × String)) (ps : Periods) (root : String) :
    (l1 (latest_data_path root) = l2 (latest_data_path root) →
      calculate_table1_for_periods ⟨l1, cp, yp, ym⟩ plist root
          = calculate_table1_for_periods ⟨l2, cp, yp, ym⟩ plist root
        ∧ calculate_table1_for_periods_with_ytd ⟨l1, cp, yp, ym⟩ ps root
          = calculate_table1_for_periods_with_ytd ⟨l2, cp, yp, ym⟩ ps root)
    ∧ (∀ e : ε, l1 (latest_data_path root) = .error e →
        calculate_table1_for_periods ⟨l1, cp, yp, ym⟩ plist root = .error e
        ∧ calculate_table1_for_periods_with_ytd ⟨l1, cp, yp, ym⟩ ps root = .error e) := by
  constructor
  · intro h
    constructor
    · unfold calculate_table1_for_periods
      rw [show (⟨l1, cp, yp, ym⟩ : Table1Env Raw ε).load_all_raw_data = l1 from rfl, h]
    · unfold calculate_table1_for_periods_with_ytd
      rw [show (⟨l1, cp, yp, ym⟩ : Table1Env Raw ε).load_all_raw_data = l1 from rfl, h]
  · intro e he
    constructor
    · unfold calculate_table1_for_periods
      rw [show (⟨l1, cp, yp, ym⟩ : Table1Env Raw ε).load_all_raw_data = l1 from rfl, he]
    · unfold calculate_table1_for_periods_with_ytd
      rw [show (⟨l1, cp, yp, ym⟩ : Table1Env Raw ε).load_all_raw_data = l1 from rfl, he]

/-- C9 (witness): with a loader that fails at `d/raw/2025-42`, the call
fails for a period list that never mentions 2025-42, and agreeing
loaders give identical results. -/
theorem c9_witness :
    calculate_table1_for_periods
        (⟨fun _ => .error "sources absent", fun _ _ => .ok zero_metrics,
          fun _ => .ok [], fun _ _ => .ok zero_metrics⟩ : Table1Env Nat String)
        [("actual", "2023-07")] "d" = .error "sources absent"
    ∧ calculate_table1_for_periods_with_ytd
        (⟨fun _ => .error "sources absent", fun _ _ => .ok zero_metrics,
          fun _ => .ok [], fun _ _ => .ok zero_metrics⟩ : Table1Env Nat String)
        ⟨"2023-07", "2023-06", "2022-07", "2023-07"⟩ "d" = .error "sources absent" :=
  (c9_table1_reads_only_fixed_directory
    (fun _ _ => .ok zero_metrics) (fun _ => .ok []) (fun _ _ => .ok zero_metrics)
    (fun _ => .error "sources absent") (fun _ => .error "sources absent")
    [("actual", "2023-07")] ⟨"2023-07", "2023-06", "2022-07", "2023-07"⟩ "d").2
    "sources absent" rfl

/-- C4 (code bug): on a week containing a single online new-customer row
for SE with 100.0 of gross revenue and a missing `Order No` (distinct
order count 0), the per-country AOV calculator returns `+inf` for SE —
pandas `100.0 / 0` is `inf`, which the `fillna(0)` guard (replacing only
the NaN of `0/0`) lets through — where the division-guard policy
requires exactly 0.0. -/
theorem c4_aov_inf_on_zero_orders :
    (calculate_aov_new_customers_per_country_for_week [rowC4] "2025-42").countries
      = [("SE", PFloat.posInf)]
    ∧ PFloat.posInf ≠ PFloat.finite 0 := by
  exact ⟨by with_unfolding_all rfl, by decide⟩

/-- C6 (counterexample): an online row with gender segment `Unisex` and
100.0 of `Tops` revenue is invisible to the men category-sales
calculator (its result has no categories at all), although the claim
says every non-`women` row is aggregated; the very same row does count
toward the men filter of the top-products calculator. -/
theorem c6_counterexample_unisex_excluded :
    (calculate_men_category_sales_for_week [rowC6] "2025-42").categories = []
    ∧ (calculate_top_products_by_gender_for_week [rowC6] "2025-42" "men" 20).grand_total.gross_revenue
        = 100 := by
  exact ⟨by with_unfolding_all rfl, by with_unfolding_all rfl⟩

/-- C6 (amended): the men category-sales calculator aggregates exactly
the online rows whose upper-cased gender segment is `MEN` (unisex and
unknown rows excluded); the everything-not-exactly-`WOMEN` rule holds
instead in the top-products-by-gender men filter, and the women filter
there matches `WOMEN` exactly. -/
theorem c6_amended_men_is_exact_match (rows : List QlikRow) (week : String)
    (g : Option String) :
    calculate_men_category_sales_for_week rows week = menCategorySalesSpec rows week
    ∧ genderKeep "men" g = !(decide (g.map String.toUpper = some "WOMEN"))
    ∧ genderKeep "women" g = decide (g.map String.toUpper = some "WOMEN") := by
  refine ⟨?_, rfl, rfl⟩
  unfold calculate_men_category_sales_for_week menCategorySalesSpec
  simp [Bool.decide_and]

/-- Every entry of the store `metrics_cache_set` returns was present in
the dictionary just after the insertion (trimming only removes). -/
theorem metrics_cache_set_subset {α : Type} (st : MetricsStore α)
    (bw : String) (ps : List String) (d : α) (now : Nat) :
    ∀ q ∈ metrics_cache_set st bw ps d now,
      q ∈ store_insert st (get_cache_key bw ps now) ⟨d, now, bw, ps⟩ := by
  intro q hq
  simp only [metrics_cache_set] at hq
  split at hq
  · exact ((List.mergeSort_perm _ _).mem_iff).mp (List.mem_of_mem_take hq)
  · exact hq

/-- Every entry of an insertion result either carries the inserted key
or the key of an original entry. -/
theorem store_insert_keys {α : Type} (st : MetricsStore α)
    (k : CacheKey) (e : CacheEntry α) :
    ∀ q ∈ store_insert st k e, q.1 = k ∨ ∃ p ∈ st, q.1 = p.1 := by
  intro q hq
  simp only [store_insert] at hq
  split at hq
  · rcases List.mem_map.mp hq with ⟨p, hp, rfl⟩
    by_cases hpk : p.1 = k
    · left; simp [hpk]
    · right; exact ⟨p, hp, by simp [hpk]⟩
  · rcases List.mem_append.mp hq with h | h
    · exact .inr ⟨q, h, rfl⟩
    · simp only [List.mem_singleton] at h
      exact .inl (by rw [h])

/-- C8: `MetricsCache.get` returns a payload only from an entry at most
one hour old (strictly older entries miss), and after every
`MetricsCache.set` the store holds at most 10 entries, every evicted
entry being no younger than every kept one (the 10 most recent survive,
oldest evicted first). -/
theorem c8_metrics_cache_ttl_and_capacity :
    (∀ (α : Type) (st : MetricsStore α) (bw : String) (ps : List String)
        (now : Nat) (d : α),
      metrics_cache_get st bw ps now = some d →
      ∃ e : CacheEntry α, store_lookup st (get_cache_key bw ps now) = some e
        ∧ e.data = d ∧ now - e.timestamp ≤ 3600)
    ∧ (∀ (α : Type) (st : MetricsStore α) (bw : String) (ps : List String)
        (d : α) (now : Nat),
      (metrics_cache_set st bw ps d now).length ≤ 10
      ∧ ∀ p ∈ metrics_cache_set st bw ps d now,
        ∀ q ∈ store_insert st (get_cache_key bw ps now) ⟨d, now, bw, ps⟩,
          q ∉ metrics_cache_set st bw ps d now → q.2.timestamp ≤ p.2.timestamp) := by
  constructor
  · intro α st bw ps now d h
    unfold metrics_cache_get at h
    rcases hl : store_lookup st (get_cache_key bw ps now) with _ | e
    · simp [hl] at h
    · simp only [hl] at h
      split at h
      next hexp => exact absurd h (by simp)
      next hexp => exact ⟨e, rfl, Option.some.inj h, by omega⟩
  · intro α st bw ps d now
    constructor
    · simp only [metrics_cache_set]
      split
      · exact List.length_take_le 10 _
      · omega
    · intro p hp q hq hqn
      simp only [metrics_cache_set] at hp hqn
      by_cases hlen :
          (store_insert st (get_cache_key bw ps now) ⟨d, now, bw, ps⟩).length > 10
      · rw [if_pos hlen] at hp hqn
        have hqs : q ∈ (store_insert st (get_cache_key bw ps now)
            ⟨d, now, bw, ps⟩).mergeSort
              (fun a b => decide (a.2.timestamp ≥ b.2.timestamp)) :=
          ((List.mergeSort_perm _ _).mem_iff).mpr hq
        rw [← List.take_append_drop 10 ((store_insert st (get_cache_key bw ps now)
            ⟨d, now, bw, ps⟩).mergeSort
              (fun a b => decide (a.2.timestamp ≥ b.2.timestamp)))] at hqs
        rcases List.mem_append.mp hqs with hcase | hcase
        · exact absurd hcase hqn
        · have hsorted := @List.sorted_mergeSort (CacheKey × CacheEntry α)
            (fun a b => decide (a.2.timestamp ≥ b.2.timestamp))
            (fun a b c h1 h2 => by
              simp only [decide_eq_true_eq] at h1 h2 ⊢; omega)
            (fun a b => by
              rcases Nat.le_total a.2.timestamp b.2.timestamp with h | h <;>
                simp [h])
            (store_insert st (get_cache_key bw ps now) ⟨d, now, bw, ps⟩)
          rw [← List.take_append_drop 10 ((store_insert st (get_cache_key bw ps now)
              ⟨d, now, bw, ps⟩).mergeSort
                (fun a b => decide (a.2.timestamp ≥ b.2.timestamp)))] at hsorted
          have := (List.pairwise_append.mp hsorted).2.2 p hp q hcase
          simpa using this
      · rw [if_neg hlen] at hp hqn
        exact absurd hq hqn

/-- C8 (witness): a one-entry store whose entry is 20 seconds old is hit
and its age bound holds, and a `set` on the empty store stays within the
capacity. -/
theorem c8_witness :
    (∃ e : CacheEntry Nat,
      store_lookup
          [(get_cache_key "2025-42" ["2025-42"] 120,
            (⟨7, 100, "2025-42", ["2025-42"]⟩ : CacheEntry Nat))]
          (get_cache_key "2025-42" ["2025-42"] 120) = some e
        ∧ e.data = 7 ∧ 120 - e.timestamp ≤ 3600)
    ∧ (metrics_cache_set ([] : MetricsStore Nat) "2025-42" ["2025-42"] 7 120).length ≤ 10 := by
  refine ⟨c8_metrics_cache_ttl_and_capacity.1 Nat
      [(get_cache_key "2025-42" ["2025-42"] 120, ⟨7, 100, "2025-42", ["2025-42"]⟩)]
      "2025-42" ["2025-42"] 120 7 ?_,
    (c8_metrics_cache_ttl_and_capacity.2 Nat [] "2025-42" ["2025-42"] 7 120).1⟩
  with_unfolding_all rfl

/-- C10: the cache key embeds the wall-clock minute, so a `get`
following a `set` (into a store with no pre-existing entry for the
`get`'s key) misses whenever the two calls fall in different calendar
minutes — however fresh the stored entry — and hits (returning the
stored payload) when they fall in the same minute. -/
theorem c10_cache_key_minute_granularity :
    (∀ (α : Type) (st : MetricsStore α) (bw : String) (ps : List String)
        (d : α) (t1 t2 : Nat),
      store_lookup st (get_cache_key bw ps t2) = none →
      t1 / 60 ≠ t2 / 60 →
      metrics_cache_get (metrics_cache_set st bw ps d t1) bw ps t2 = none)
    ∧ (∀ (α : Type) (bw : String) (ps : List String) (d : α) (t1 t2 : Nat),
      t1 / 60 = t2 / 60 →
      metrics_cache_get (metrics_cache_set ([] : MetricsStore α) bw ps d t1)
        bw ps t2 = some d) := by
  constructor
  · intro α st bw ps d t1 t2 hfresh hmin
    have hk12 : get_cache_key bw ps t1 ≠ get_cache_key bw ps t2 := by
      intro hc
      exact hmin (congrArg CacheKey.minute hc)
    have hfind : store_lookup (metrics_cache_set st bw ps d t1)
        (get_cache_key bw ps t2) = none := by
      unfold store_lookup
      rw [Option.map_eq_none', List.find?_eq_none]
      intro q hq
      have hq2 := metrics_cache_set_subset st bw ps d t1 q hq
      rcases store_insert_keys st _ _ q hq2 with h | ⟨p, hp, hqp⟩
      · simp only [decide_eq_true_eq]
        rw [h]
        exact hk12
      · unfold store_lookup at hfresh
        rw [Option.map_eq_none', List.find?_eq_none] at hfresh
        have := hfresh p hp
        simp only [decide_eq_true_eq] at this ⊢
        rw [hqp]
        exact this
    unfold metrics_cache_get
    rw [hfind]
  · intro α bw ps d t1 t2 hm
    have hage : ¬ (t2 - t1 > 3600) := by omega
    have hset : metrics_cache_set ([] : MetricsStore α) bw ps d t1
        = [(get_cache_key bw ps t1, ⟨d, t1, bw, ps⟩)] := by
      simp [metrics_cache_set, store_insert]
    have hk : get_cache_key bw ps t1 = get_cache_key bw ps t2 := by
      unfold get_cache_key
      rw [hm]
    rw [hset, hk]
    unfold metrics_cache_get store_lookup
    simp [hage]

/-- C10 (witness): a set at second 59 is missed by a get at second 61
(minutes 0 and 1, entry only 2 seconds old) and hit by a get in the same
minute. -/
theorem c10_witness :
    metrics_cache_get
        (metrics_cache_set ([] : MetricsStore Nat) "2025-42" ["2025-41"] 7 59)
        "2025-42" ["2025-41"] 61 = none
    ∧ metrics_cache_get
        (metrics_cache_set ([] : MetricsStore Nat) "2025-42" ["2025-41"] 7 59)
        "2025-42" ["2025-41"] 59 = some 7 := by
  constructor
  · exact c10_cache_key_minute_granularity.1 Nat [] "2025-42" ["2025-41"] 7 59 61
      (by with_unfolding_all rfl) (by decide)
  · exact c10_cache_key_minute_granularity.2 Nat "2025-42" ["2025-41"] 7 59 59 rfl

/-! ## Conservation of quantities in the top-products calculator -/

/-- Splitting a mapped sum along a Boolean filter. -/
theorem sum_map_filter_add {β M : Type} [AddCommMonoid M]
    (l : List β) (p : β → Bool) (f : β → M) :
    ((l.filter p).map f).sum + ((l.filter (fun a => !(p a))).map f).sum
      = (l.map f).sum := by
  induction l with
  | nil => simp
  | cons a l ih =>
    by_cases h : p a
    · simp only [List.filter_cons, h, Bool.not_true, if_pos, if_neg, Bool.false_eq_true,
        not_false_eq_true, List.map_cons, List.sum_cons]
      rw [add_assoc, ih]
    · simp only [List.filter_cons, h, Bool.not_false, if_pos, if_neg, Bool.false_eq_true,
        not_false_eq_true, List.map_cons, List.sum_cons]
      rw [add_left_comm, ih]

/-- Splitting a mapped sum along the disjunction of two pointwise
disjoint Boolean filters. -/
theorem sum_map_filter_or {β M : Type} [AddCommMonoid M]
    (l : List β) (p q : β → Bool) (f : β → M)
    (hdisj : ∀ a, ¬(p a = true ∧ q a = true)) :
    ((l.filter (fun a => p a || q a)).map f).sum
      = ((l.filter p).map f).sum + ((l.filter q).map f).sum := by
  induction l with
  | nil => simp
  | cons a l ih =>
    by_cases hp : p a
    · have hq : q a = false := by
        rcases hq2 : q a with _ | _
        · rfl
        · exact absurd ⟨hp, hq2⟩ (hdisj a)
      simp only [List.filter_cons, hp, hq, Bool.true_or, if_pos, if_neg,
        Bool.false_eq_true, not_false_eq_true, List.map_cons, List.sum_cons]
      rw [ih, add_assoc]
    · by_cases hq : q a
      · simp only [List.filter_cons, hp, hq, Bool.false_or, if_pos, if_neg,
          Bool.false_eq_true, not_false_eq_true, List.map_cons, List.sum_cons]
        rw [ih, add_left_comm]
      · simp only [List.filter_cons, hp, hq, Bool.false_or, if_neg,
          Bool.false_eq_true, not_false_eq_true]
        exact ih

/-- No row belongs to a top group of the empty selection. -/
theorem predInTop_nil (r : QlikRow) : predInTop [] r = false := by
  unfold predInTop
  cases keyOf r <;> simp

/-- Membership in the groups of `k :: ks` splits into membership in the
group of `k` and membership in the groups of `ks`. -/
theorem predInTop_cons (k : ProductKey) (ks : List ProductKey) (r : QlikRow) :
    predInTop (k :: ks) r = (decide (keyOf r = some k) || predInTop ks r) := by
  unfold predInTop
  cases hr : keyOf r with
  | none => simp
  | some k2 => simp [List.mem_cons, Bool.decide_or]

/-- For distinct group keys, the sum of the per-group sums equals the
sum over the rows belonging to any of the groups. -/
theorem sum_groups_eq_sum_filter (ks : List ProductKey) (l : List QlikRow)
    (f : QlikRow → ℚ) (hnd : ks.Nodup) :
    (ks.map (fun k =>
        ((l.filter (fun r => decide (keyOf r = some k))).map f).sum)).sum
      = ((l.filter (predInTop ks)).map f).sum := by
  induction ks with
  | nil =>
    simp only [List.map_nil, List.sum_nil]
    rw [show (predInTop ([] : List ProductKey)) = (fun _ => false) from
      funext predInTop_nil]
    simp
  | cons k ks ih =>
    rcases List.nodup_cons.mp hnd with ⟨hk, hnd2⟩
    have hdisj : ∀ r : QlikRow,
        ¬((decide (keyOf r = some k)) = true ∧ predInTop ks r = true) := by
      rintro r ⟨h1, h2⟩
      rw [decide_eq_true_eq] at h1
      simp only [predInTop, h1, decide_eq_true_eq] at h2
      exact hk h2
    rw [show (predInTop (k :: ks)) = (fun r =>
        decide (keyOf r = some k) || predInTop ks r) from
      funext (predInTop_cons k ks)]
    rw [sum_map_filter_or l _ _ f hdisj]
    simp only [List.map_cons, List.sum_cons]
    rw [ih hnd2]

/-- The selected top keys are pairwise distinct. -/
theorem topKeys_nodup (online_df : List QlikRow) (n : Nat) :
    (topKeys online_df n).Nodup := by
  unfold topKeys
  apply List.Nodup.sublist (List.take_sublist _ _)
  apply (List.mergeSort_perm _ _).nodup_iff.mpr
  exact List.Nodup.filter _ (List.nodup_dedup _)

/-- Exact conservation over the rationals: top-group quantities plus the
quantities of the rows outside the top groups add up to the grand-total
quantity. -/
theorem top_conservation (online_df : List QlikRow) (n : Nat) :
    ((topKeys online_df n).map (groupQty online_df)).sum
      + ((online_df.filter (fun r => !(predInTop (topKeys online_df n) r))).map effQty).sum
      = (online_df.map effQty).sum := by
  have h1 : ((topKeys online_df n).map (groupQty online_df)).sum
      = ((online_df.filter (predInTop (topKeys online_df n))).map effQty).sum := by
    rw [← sum_groups_eq_sum_filter _ _ _ (topKeys_nodup online_df n)]
    rfl
  rw [h1]
  exact sum_map_filter_add online_df (predInTop (topKeys online_df n)) effQty

/-- A mapped sum of integer-valued rationals is integer-valued. -/
theorem sum_map_int_valued {β : Type} (f : β → ℚ) (l : List β)
    (h : ∀ x ∈ l, ∃ z : ℤ, f x = (z : ℚ)) :
    ∃ z : ℤ, (l.map f).sum = (z : ℚ) := by
  induction l with
  | nil => exact ⟨0, by simp⟩
  | cons a l ih =>
    rcases h a (List.mem_cons_self a l) with ⟨za, ha⟩
    rcases ih (fun x hx => h x (List.mem_cons_of_mem a hx)) with ⟨zl, hl⟩
    exact ⟨za + zl, by push_cast; rw [List.map_cons, List.sum_cons, ha, hl]⟩

/-- Python's `int()` is exact on an integer-valued float. -/
theorem pytrunc_intCast (z : ℤ) : pytrunc (z : ℚ) = z := by
  unfold pytrunc
  split
  · exact Int.floor_intCast z
  · exact Int.ceil_intCast z

/-- C7 (counterexample): with two men's product groups of quantity 1/2
each (revenues 100 and 50) and N = 1, the reported top total truncates
1/2 to 0 and the grand total truncates 1.0 to 1, so
`top_total.sales_qty + excluded quantity = 0 + 1/2 ≠ 1 =
grand_total.sales_qty`. -/
theorem c7_counterexample_fractional_qty :
    ¬(((calculate_top_products_by_gender_for_week [rowA7, rowB7] "2025-42" "men" 1).top_total.sales_qty : ℚ)
        + excludedOnlineQty [rowA7, rowB7] "men" 1
        = ((calculate_top_products_by_gender_for_week [rowA7, rowB7] "2025-42" "men" 1).grand_total.sales_qty : ℚ)) := by
  intro h
  have h1 : (calculate_top_products_by_gender_for_week [rowA7, rowB7] "2025-42" "men" 1).top_total.sales_qty = 0 := by
    with_unfolding_all rfl
  have h2 : excludedOnlineQty [rowA7, rowB7] "men" 1 = 1/2 := by
    with_unfolding_all rfl
  have h3 : (calculate_top_products_by_gender_for_week [rowA7, rowB7] "2025-42" "men" 1).grand_total.sales_qty = 1 := by
    with_unfolding_all rfl
  rw [h1, h2, h3] at h
  norm_num at h

/-- C7 (amended): whenever every row's parsed sales quantity is a whole
number — as in the real exports, where quantities are unit counts — the
conservation identity holds exactly as reported (the `int()` casts are
then lossless): `top_total.sales_qty` plus the summed quantity of all
excluded online rows equals `grand_total.sales_qty`; and
`grand_total.sob` is exactly 100.0 for every input, a zero grand-total
revenue included. -/
theorem c7_amended_conservation (qlik_df : List QlikRow) (week_str gender_filter : String)
    (top_n : Nat)
    (hint : ∀ r ∈ qlik_df, ∃ z : ℤ, effQty r = (z : ℚ)) :
    (((calculate_top_products_by_gender_for_week qlik_df week_str gender_filter top_n).top_total.sales_qty : ℚ)
        + excludedOnlineQty qlik_df gender_filter top_n
        = ((calculate_top_products_by_gender_for_week qlik_df week_str gender_filter top_n).grand_total.sales_qty : ℚ))
    ∧ (calculate_top_products_by_gender_for_week qlik_df week_str gender_filter top_n).grand_total.sob
        = 100 := by
  constructor
  · have hon : ∀ r ∈ qlik_df.filter (fun r =>
        decide (r.salesChannel = "Online") && genderKeep gender_filter r.gender),
        ∃ z : ℤ, effQty r = (z : ℚ) :=
      fun r hr => hint r (List.mem_of_mem_filter hr)
    have htop : (calculate_top_products_by_gender_for_week qlik_df week_str gender_filter top_n).top_total.sales_qty
        = pytrunc (((topKeys (qlik_df.filter (fun r =>
            decide (r.salesChannel = "Online") && genderKeep gender_filter r.gender)) top_n).map
              (groupQty (qlik_df.filter (fun r =>
                decide (r.salesChannel = "Online") && genderKeep gender_filter r.gender)))).sum) := rfl
    have hgrand : (calculate_top_products_by_gender_for_week qlik_df week_str gender_filter top_n).grand_total.sales_qty
        = pytrunc (((qlik_df.filter (fun r =>
            decide (r.salesChannel = "Online") && genderKeep gender_filter r.gender)).map effQty).sum) := rfl
    have hexcl : excludedOnlineQty qlik_df gender_filter top_n
        = (((qlik_df.filter (fun r =>
            decide (r.salesChannel = "Online") && genderKeep gender_filter r.gender)).filter
              (fun r => !(predInTop (topKeys (qlik_df.filter (fun r =>
                decide (r.salesChannel = "Online") && genderKeep gender_filter r.gender)) top_n) r))).map effQty).sum := rfl
    rw [htop, hgrand, hexcl]
    rcases sum_map_int_valued effQty _ hon with ⟨zg, hzg⟩
    rcases sum_map_int_valued
        (groupQty (qlik_df.filter (fun r =>
          decide (r.salesChannel = "Online") && genderKeep gender_filter r.gender)))
        (topKeys (qlik_df.filter (fun r =>
          decide (r.salesChannel = "Online") && genderKeep gender_filter r.gender)) top_n)
        (fun k _ => by
          unfold groupQty
          exact sum_map_int_valued effQty _
            (fun r hr => hon r (List.mem_of_mem_filter hr))) with ⟨zt, hzt⟩
    have hcons := top_conservation
      (qlik_df.filter (fun r =>
        decide (r.salesChannel = "Online") && genderKeep gender_filter r.gender)) top_n
    rw [hzt, hzg, pytrunc_intCast, pytrunc_intCast]
    rw [hzt, hzg] at hcons
    exact hcons
  · rfl

/-- C7 (witness): the amended identity on a concrete one-row input with
whole quantity 3: top total 3 plus excluded 0 equals grand total 3, and
the grand share-of-business is 100.0. -/
theorem c7_witness :
    (((calculate_top_products_by_gender_for_week [rowW7] "2025-42" "men" 1).top_total.sales_qty : ℚ)
        + excludedOnlineQty [rowW7] "men" 1
        = ((calculate_top_products_by_gender_for_week [rowW7] "2025-42" "men" 1).grand_total.sales_qty : ℚ))
    ∧ (calculate_top_products_by_gender_for_week [rowW7] "2025-42" "men" 1).grand_total.sob = 100 :=
  c7_amended_conservation [rowW7] "2025-42" "men" 1 (by
    intro r hr
    simp only [List.mem_singleton] at hr
    subst hr
    exact ⟨3, by with_unfolding_all rfl⟩)

end WeeklyReport
